import Mathlib

/-!
Shallow embedding of the PongAI policy network and REINFORCE trainer
(src/pong/network.rs and src/pong/reinforce.rs).  Rust `f32` values are
modelled as real numbers; fixed-size arrays are modelled as functions out
of `ℕ` read and written only at in-range indices; a Rust panic
(out-of-bounds indexing) is modelled as `Option.none`.  The constants
`TRAINING`, `LEARNING_RATE` and `DISCOUNTING_FACTOR` are declared outside
the provided sources, so they are passed as explicit parameters.
-/

namespace PongAI

noncomputable section

/-- The two actions of the NPC paddle (network.rs, `NPCInput`). -/
inductive NPCInput where
  | UpKey : NPCInput
  | DownKey : NPCInput
deriving DecidableEq

/-- Policy network parameters (network.rs, `struct Network`). -/
structure Network where
  biases : ℕ → ℝ
  first_layer_weights : ℕ → ℕ → ℝ
  second_layer_weights : ℕ → ℕ → ℝ
  output_layer_weights : ℕ → ℝ

/-- Gradient accumulator (reinforce.rs, `struct PolicyGradient`). -/
structure PolicyGradient where
  biases : ℕ → ℝ
  first_layer_weights : ℕ → ℕ → ℝ
  second_layer_weights : ℕ → ℕ → ℝ
  output_layer_weights : ℕ → ℝ

/-- Trajectory buffer and episode bookkeeping (reinforce.rs, `struct EpochData`). -/
structure EpochData where
  actions : List (NPCInput × ℝ)
  states : List (ℕ → ℝ)
  rewards : List ℝ
  inprogress : Bool
  epoch : ℕ

/-- Activation function of the network (network.rs lines 27-30):
`1.0 / (1.0 + input.exp())`. -/
def activation (input : ℝ) : ℝ :=
  1 / (1 + Real.exp input)

/-- First hidden layer node `k` (network.rs lines 135-147; recomputed
identically in reinforce.rs lines 81-93): the accumulation loop sums
`inputs[i] * first_layer_weights[i][k]` over `i = 0..5`, then the bias is
added and `activation` applied. -/
def layer1 (net : Network) (inputs : ℕ → ℝ) (k : ℕ) : ℝ :=
  activation ((∑ i in Finset.range 5, inputs i * net.first_layer_weights i k) + net.biases k)

/-- Second hidden layer node `k` (network.rs lines 148-160; reinforce.rs
lines 94-105). -/
def layer2 (net : Network) (inputs : ℕ → ℝ) (k : ℕ) : ℝ :=
  activation ((∑ i in Finset.range 5, layer1 net inputs i * net.second_layer_weights i k) + net.biases (k + 5))

/-- Raw network output (network.rs lines 161-167; reinforce.rs lines 106-112). -/
def networkOutput (net : Network) (inputs : ℕ → ℝ) : ℝ :=
  activation ((∑ i in Finset.range 5, layer2 net inputs i * net.output_layer_weights i) + net.biases 10)

/-- Action-sampling step of `feed_forward` (network.rs lines 169-182), with
the uniform draw `r` made an explicit argument: if `r < output` the action
is `UpKey` recorded with probability `output`, otherwise `DownKey` recorded
with probability `1 - output`. -/
def sampleAction (output r : ℝ) : NPCInput × ℝ :=
  if r < output then (NPCInput.UpKey, output) else (NPCInput.DownKey, 1 - output)

/-- Modelled from the spec (section 4.1 and glossary), for comparison with
the code's `activation`: the sigmoid function the spec prescribes at every
node, `sigmoid(x) = 1/(1+e^{-x})`. -/
def sigmoid (x : ℝ) : ℝ :=
  1 / (1 + Real.exp (-x))

/-- Modelled from the spec (section 4.1), for comparison with the code's
forward pass: `hidden1[k] = sigmoid(biases[k] + Σ_i state[i]*W1[i][k])`. -/
def specHidden1 (net : Network) (state : ℕ → ℝ) (k : ℕ) : ℝ :=
  sigmoid (net.biases k + ∑ i in Finset.range 5, state i * net.first_layer_weights i k)

/-- Modelled from the spec (section 4.1):
`hidden2[k] = sigmoid(biases[5+k] + Σ_j hidden1[j]*W2[j][k])`. -/
def specHidden2 (net : Network) (state : ℕ → ℝ) (k : ℕ) : ℝ :=
  sigmoid (net.biases (5 + k) + ∑ j in Finset.range 5, specHidden1 net state j * net.second_layer_weights j k)

/-- Modelled from the spec (section 4.1):
`output = sigmoid(biases[10] + Σ_k hidden2[k]*Wout[k])`. -/
def specForwardOutput (net : Network) (state : ℕ → ℝ) : ℝ :=
  sigmoid (net.biases 10 + ∑ k in Finset.range 5, specHidden2 net state k * net.output_layer_weights k)

/-- Discounted return for timestep `i` (reinforce.rs lines 64-72): the inner
loop runs `j` over `i..T` (with `T = states.len()`) accumulating
`rewards[j] * DISCOUNTING_FACTOR^(j-i)`. -/
def discountedReturn (rewards : List ℝ) (discount : ℝ) (T i : ℕ) : ℝ :=
  (List.range' i (T - i)).foldl (fun acc j => acc + rewards.getD j 0 * discount ^ (j - i)) 0

/-- Per-timestep gradient accumulation (reinforce.rs lines 79-186): the
forward pass is recomputed on the stored state, the realized probability
`pi` and the `adjustment` are sign-corrected when the recorded action was
`DownKey`, and every parameter of the accumulator receives its contribution.
The three disjoint bias index ranges `{10}`, `[5,10)` and `[0,5)` mirror the
source's three bias-update statements. -/
def timestepGradient (net : Network) (learningRate discount : ℝ) (inputs : ℕ → ℝ)
    (act : NPCInput) (Gi : ℝ) (i : ℕ) (g : PolicyGradient) : PolicyGradient :=
  let a0 : ℕ → ℝ := fun k => layer1 net inputs k
  let a1 : ℕ → ℝ := fun k => layer2 net inputs k
  let pi0 : ℝ := networkOutput net inputs
  let pi : ℝ := if act = NPCInput.DownKey then 1 - pi0 else pi0
  let adjustment : ℝ :=
    if act = NPCInput.DownKey then learningRate * discount ^ i * Gi * (-1)
    else learningRate * discount ^ i * Gi
  let sum_results : ℕ → ℝ := fun j =>
    ∑ k in Finset.range 5,
      net.output_layer_weights k * a1 k * net.second_layer_weights j k * (1 - a1 k)
  { biases := fun j =>
      if j = 10 then g.biases j + adjustment * (1 - pi)
      else if 5 ≤ j ∧ j < 10 then
        g.biases j + adjustment * (1 - pi) * a1 (j - 5) * (1 - a1 (j - 5))
      else if j < 5 then
        g.biases j + adjustment * (1 - pi) * a0 j * (1 - a0 j) * sum_results j
      else g.biases j
    first_layer_weights := fun m j =>
      if m < 5 ∧ j < 5 then
        g.first_layer_weights m j
          + adjustment * (1 - pi) * inputs m * a0 j * (1 - a0 j) * sum_results j
      else g.first_layer_weights m j
    second_layer_weights := fun j k =>
      if j < 5 ∧ k < 5 then
        g.second_layer_weights j k
          + adjustment * (1 - pi) * net.output_layer_weights k * a1 k * (1 - a1 k) * a0 j
      else g.second_layer_weights j k
    output_layer_weights := fun k =>
      if k < 5 then g.output_layer_weights k + adjustment * (1 - pi) * a1 k
      else g.output_layer_weights k }

/-- Folding the per-timestep contributions of the whole trajectory into the
accumulator (the outer loop of reinforce.rs lines 64-187, `i` running over
`0..states.len()`). -/
def accumulatedGradient (net : Network) (learningRate discount : ℝ)
    (ed : EpochData) (g : PolicyGradient) : PolicyGradient :=
  (List.range ed.states.length).foldl
    (fun acc i =>
      timestepGradient net learningRate discount (ed.states.getD i (fun _ => 0))
        (ed.actions.getD i (NPCInput.UpKey, 0)).1
        (discountedReturn ed.rewards discount ed.states.length i) i acc)
    g

/-- Applying the accumulated gradient to the network (reinforce.rs lines
190-204): every weight and bias receives its accumulated value, added once. -/
def applyGradient (net : Network) (g : PolicyGradient) : Network :=
  { biases := fun j => net.biases j + g.biases j
    first_layer_weights := fun j k => net.first_layer_weights j k + g.first_layer_weights j k
    second_layer_weights := fun j k => net.second_layer_weights j k + g.second_layer_weights j k
    output_layer_weights := fun j => net.output_layer_weights j + g.output_layer_weights j }

/-- The all-zero accumulator, `PolicyGradient::default()` (reinforce.rs
lines 46-52 and 206). -/
def zeroGradient : PolicyGradient :=
  { biases := fun _ => 0
    first_layer_weights := fun _ _ => 0
    second_layer_weights := fun _ _ => 0
    output_layer_weights := fun _ => 0 }

/-- Post-training bookkeeping (reinforce.rs lines 208-214): the
epoch-in-progress flag is set back to true and the three trajectory buffers
are replaced by fresh empty vectors; the epoch counter is untouched here. -/
def clearedEpochData (ed : EpochData) : EpochData :=
  { actions := []
    states := []
    rewards := []
    inprogress := true
    epoch := ed.epoch }

/-- The whole training system `train_with_reinforce` (reinforce.rs lines
54-218).  It runs only when `inprogress` is false and the global `TRAINING`
flag (a constant declared outside the provided sources, here the `training`
argument) is set; otherwise it leaves all three resources unchanged.  The
body indexes `rewards[j]` for `j < states.len()` and `actions[i]` for
`i < states.len()` without any length check, so a trajectory whose rewards
or actions are shorter than its states panics — modelled as `none`. -/
def trainWithReinforce (training : Bool) (learningRate discount : ℝ)
    (net : Network) (g : PolicyGradient) (ed : EpochData) :
    Option (Network × PolicyGradient × EpochData) :=
  if ed.inprogress = false ∧ training = true then
    if ed.rewards.length < ed.states.length ∨ ed.actions.length < ed.states.length then
      none
    else
      some (applyGradient net (accumulatedGradient net learningRate discount ed g),
            zeroGradient, clearedEpochData ed)
  else
    some (net, g, ed)

/-- The all-zero network, used for the concrete training scenarios. -/
def zeroNet : Network :=
  { biases := fun _ => 0
    first_layer_weights := fun _ _ => 0
    second_layer_weights := fun _ _ => 0
    output_layer_weights := fun _ => 0 }

/-- The all-zero state vector. -/
def zeroState : ℕ → ℝ := fun _ => 0

/-- Single-timestep scenario of the spec's end-to-end test (section 8): one
state, recorded action Up, terminal reward +1, episode finished. -/
def edC3 : EpochData :=
  { actions := [(NPCInput.UpKey, 1/2)]
    states := [zeroState]
    rewards := [1]
    inprogress := false
    epoch := 0 }

/-- Mismatched trajectory: one state, one action, two rewards. -/
def edMismatchLong : EpochData :=
  { actions := [(NPCInput.UpKey, 1/2)]
    states := [zeroState]
    rewards := [1, 1]
    inprogress := false
    epoch := 0 }

/-- Mismatched trajectory: one state, one action, no rewards. -/
def edMismatchShort : EpochData :=
  { actions := [(NPCInput.UpKey, 1/2)]
    states := [zeroState]
    rewards := []
    inprogress := false
    epoch := 0 }

/-- Single-timestep trajectory with a given recorded action, state and
reward, used for the sign-flip comparison. -/
def edSingle (act : NPCInput) (p : ℝ) (st : ℕ → ℝ) (reward : ℝ) : EpochData :=
  { actions := [(act, p)]
    states := [st]
    rewards := [reward]
    inprogress := false
    epoch := 0 }

/-- Network that is zero everywhere except the output bias, which is 1. -/
def outBiasNet : Network :=
  { biases := fun j => if j = 10 then 1 else 0
    first_layer_weights := fun _ _ => 0
    second_layer_weights := fun _ _ => 0
    output_layer_weights := fun _ => 0 }

section Helpers

lemma activation_zero : activation 0 = 1/2 := by
  simp [activation, Real.exp_zero]
  norm_num

lemma layer1_zeroNet (k : ℕ) : layer1 zeroNet zeroState k = 1/2 := by
  simp [layer1, zeroNet, zeroState, activation_zero]

lemma layer2_zeroNet (k : ℕ) : layer2 zeroNet zeroState k = 1/2 := by
  simp [layer2, zeroNet, activation_zero]

lemma networkOutput_zeroNet : networkOutput zeroNet zeroState = 1/2 := by
  simp [networkOutput, zeroNet, activation_zero]

lemma foldl_range_add (f : ℕ → ℝ) :
    ∀ (n s : ℕ) (a : ℝ),
      (List.range' s n).foldl (fun acc j => acc + f j) a
        = a + ∑ j in Finset.Ico s (s + n), f j := by
  intro n
  induction n with
  | zero => intro s a; simp
  | succ m ih =>
    intro s a
    rw [List.range'_succ, List.foldl_cons, ih]
    rw [Finset.sum_eq_sum_Ico_succ_bot (by omega : s < s + (m + 1))]
    have h : s + (m + 1) = (s + 1) + m := by omega
    rw [h]
    ring

lemma tg_up_biases10 (net : Network) (lr d : ℝ) (st : ℕ → ℝ) (Gi : ℝ) (i : ℕ) (g : PolicyGradient) :
    (timestepGradient net lr d st NPCInput.UpKey Gi i g).biases 10 =
      g.biases 10 + lr * d ^ i * Gi * (1 - networkOutput net st) := by
  simp [timestepGradient]

lemma tg_up_biases5 (net : Network) (lr d : ℝ) (st : ℕ → ℝ) (Gi : ℝ) (i : ℕ) (g : PolicyGradient) :
    (timestepGradient net lr d st NPCInput.UpKey Gi i g).biases 5 =
      g.biases 5 + lr * d ^ i * Gi * (1 - networkOutput net st)
        * layer2 net st 0 * (1 - layer2 net st 0) := by
  simp [timestepGradient]

lemma accC3_eq : accumulatedGradient zeroNet 0.1 1 edC3 zeroGradient =
    timestepGradient zeroNet 0.1 1 zeroState NPCInput.UpKey 1 0 zeroGradient := by
  have h1 : List.range 1 = [0] := rfl
  have h2 : List.range' 0 1 = [0] := rfl
  simp [accumulatedGradient, edC3, discountedReturn, h1, h2]

lemma acc_edMismatchLong : accumulatedGradient zeroNet 0.1 1 edMismatchLong zeroGradient =
    timestepGradient zeroNet 0.1 1 zeroState NPCInput.UpKey 1 0 zeroGradient := by
  have h1 : List.range 1 = [0] := rfl
  have h2 : List.range' 0 1 = [0] := rfl
  simp [accumulatedGradient, edMismatchLong, discountedReturn, h1, h2]

lemma acc_edSingle (net : Network) (lr d : ℝ) (act : NPCInput) (p : ℝ)
    (st : ℕ → ℝ) (reward : ℝ) (g : PolicyGradient) :
    accumulatedGradient net lr d (edSingle act p st reward) g
      = timestepGradient net lr d st act reward 0 g := by
  have h1 : List.range 1 = [0] := rfl
  have h2 : List.range' 0 1 = [0] := rfl
  simp [accumulatedGradient, edSingle, discountedReturn, h1, h2]

lemma trainC3_eq : trainWithReinforce true 0.1 1 zeroNet zeroGradient edC3
    = some (applyGradient zeroNet (accumulatedGradient zeroNet 0.1 1 edC3 zeroGradient),
            zeroGradient, clearedEpochData edC3) := by
  unfold trainWithReinforce
  rw [if_pos ⟨rfl, rfl⟩, if_neg (by norm_num [edC3])]

end Helpers

/-- C1: the claim says every node applies `sigmoid(x) = 1/(1+e^{-x})`, but the
code's `activation` (network.rs line 29) computes `1/(1+e^{x})` — the negation
of the argument is missing, although the code's own comment says it returns the
sigmoid.  On the network whose only nonzero parameter is the output bias 1 and
the zero state, the code's forward pass yields `activation 1 = 1/(1+e) < 1/2`,
while the spec's formulas yield `sigmoid 1 = 1/(1+e^{-1}) > 1/2`. -/
theorem C1_forward_pass_uses_flipped_sigmoid :
    networkOutput outBiasNet zeroState = activation 1 ∧
    specForwardOutput outBiasNet zeroState = sigmoid 1 ∧
    activation 1 < 1/2 ∧ 1/2 < sigmoid 1 ∧
    networkOutput outBiasNet zeroState ≠ specForwardOutput outBiasNet zeroState := by
  have hcode : networkOutput outBiasNet zeroState = activation 1 := by
    simp [networkOutput, outBiasNet]
  have hspec : specForwardOutput outBiasNet zeroState = sigmoid 1 := by
    simp [specForwardOutput, outBiasNet]
  have hexp : (1:ℝ) < Real.exp 1 := by
    have h := Real.exp_lt_exp.mpr (show (0:ℝ) < 1 by norm_num)
    rwa [Real.exp_zero] at h
  have hexpneg : Real.exp (-1) < 1 := by
    have h := Real.exp_lt_exp.mpr (show (-1:ℝ) < 0 by norm_num)
    rwa [Real.exp_zero] at h
  have hlow : activation 1 < 1/2 := by
    unfold activation
    rw [div_lt_div_iff₀ (by positivity) (by norm_num)]
    linarith
  have hhigh : (1:ℝ)/2 < sigmoid 1 := by
    unfold sigmoid
    have hp : (0:ℝ) < 1 + Real.exp (-1) := by positivity
    rw [div_lt_div_iff₀ (by norm_num) hp]
    linarith
  refine ⟨hcode, hspec, hlow, hhigh, ?_⟩
  rw [hcode, hspec]
  linarith

/-- C2: for every reward sequence and every discount in (0,1), the trainer's
discounted return at timestep `t` is `Σ_{k=t}^{T-1} reward_k * discount^(k-t)`,
and on rewards `[0,0,0,1]` with discount `0.9` it yields exactly
`[0.729, 0.81, 0.9, 1.0]` (hence within any positive tolerance). -/
theorem C2_discounted_return_formula :
    (∀ (rewards : List ℝ) (d : ℝ), 0 < d → d < 1 → ∀ t, t < rewards.length →
      discountedReturn rewards d rewards.length t
        = ∑ k in Finset.Ico t rewards.length, rewards.getD k 0 * d ^ (k - t)) ∧
    discountedReturn [0,0,0,1] 0.9 4 0 = 0.729 ∧
    discountedReturn [0,0,0,1] 0.9 4 1 = 0.81 ∧
    discountedReturn [0,0,0,1] 0.9 4 2 = 0.9 ∧
    discountedReturn [0,0,0,1] 0.9 4 3 = 1 := by
  refine ⟨?_, ?_, ?_, ?_, ?_⟩
  · intro rewards d _ _ t ht
    unfold discountedReturn
    rw [foldl_range_add (fun j => rewards.getD j 0 * d ^ (j - t)) (rewards.length - t) t 0]
    have h : t + (rewards.length - t) = rewards.length := by omega
    rw [h, zero_add]
  · norm_num [discountedReturn, List.range', List.getD]
  · norm_num [discountedReturn, List.range', List.getD]
  · norm_num [discountedReturn, List.range', List.getD]
  · norm_num [discountedReturn, List.range', List.getD]

/-- Witness for C2: the general formula instantiated at rewards `[0,0,0,1]`,
discount `0.9`, timestep 1. -/
theorem C2_discounted_return_formula_witness :
    discountedReturn [0,0,0,1] 0.9 ([0,0,0,1] : List ℝ).length 1
      = ∑ k in Finset.Ico 1 ([0,0,0,1] : List ℝ).length,
          ([0,0,0,1] : List ℝ).getD k 0 * 0.9 ^ (k - 1) :=
  C2_discounted_return_formula.1 [0,0,0,1] 0.9 (by norm_num) (by norm_num) 1 (by norm_num)

/-- C5 counterexample: at raw output `1/2` and draw `7/10`, the sampler
chooses Down yet records probability `1 - 1/2 = 1/2`, which equals the raw
output — so the claimed equivalence (recorded probability equals raw output
if and only if the action is Up) fails. -/
theorem C5_counterexample_half :
    (sampleAction (1/2) (7/10)).1 = NPCInput.DownKey ∧
    (sampleAction (1/2) (7/10)).2 = 1/2 ∧
    ¬ (((sampleAction (1/2) (7/10)).2 = 1/2) ↔ ((sampleAction (1/2) (7/10)).1 = NPCInput.UpKey)) := by
  have h : ¬ ((7:ℝ)/10 < 1/2) := by norm_num
  have e : sampleAction (1/2) (7/10) = (NPCInput.DownKey, 1 - 1/2) := by
    unfold sampleAction
    rw [if_neg h]
  rw [e]
  refine ⟨rfl, by norm_num, ?_⟩
  intro hiff
  have h2 : ((NPCInput.DownKey, (1:ℝ) - 1/2)).2 = 1/2 := by norm_num
  exact NPCInput.noConfusion (hiff.mp h2)

/-- C5 (amended): the sampler chooses Up recording exactly the raw output when
`r < output`, otherwise Down recording exactly `1 - output`; the recorded
probability equals the raw output whenever Up was chosen, and when the raw
output is not `1/2` it equals the raw output if and only if Up was chosen. -/
theorem C5_sampler (p r : ℝ) :
    (r < p → sampleAction p r = (NPCInput.UpKey, p)) ∧
    (¬ r < p → sampleAction p r = (NPCInput.DownKey, 1 - p)) ∧
    ((sampleAction p r).1 = NPCInput.UpKey → (sampleAction p r).2 = p) ∧
    (p ≠ 1/2 → (((sampleAction p r).2 = p) ↔ (sampleAction p r).1 = NPCInput.UpKey)) := by
  by_cases h : r < p
  · have e : sampleAction p r = (NPCInput.UpKey, p) := by
      unfold sampleAction
      rw [if_pos h]
    rw [e]
    exact ⟨fun _ => rfl, fun hn => absurd h hn, fun _ => rfl,
      fun _ => ⟨fun _ => rfl, fun _ => rfl⟩⟩
  · have e : sampleAction p r = (NPCInput.DownKey, 1 - p) := by
      unfold sampleAction
      rw [if_neg h]
    rw [e]
    refine ⟨fun hr => absurd hr h, fun _ => rfl, fun hc => NPCInput.noConfusion hc, ?_⟩
    intro hp
    constructor
    · intro h2
      have h3 : 1 - p = p := h2
      exact absurd (by linarith : p = 1/2) hp
    · intro hc
      exact NPCInput.noConfusion hc

/-- Witness for C5: at raw output `3/4` and draw `1/2` the sampler returns
Up with recorded probability `3/4`. -/
theorem C5_sampler_witness : sampleAction (3/4) (1/2) = (NPCInput.UpKey, 3/4) :=
  (C5_sampler (3/4) (1/2)).1 (by norm_num)

/-- C10: whenever the epoch-in-progress flag is still true, the trainer is a
complete no-op — the network, the gradient accumulator and the trajectory
buffers all come back unchanged. -/
theorem C10_trainer_noop_while_in_progress (training : Bool) (lr d : ℝ)
    (net : Network) (g : PolicyGradient) (ed : EpochData)
    (h : ed.inprogress = true) :
    trainWithReinforce training lr d net g ed = some (net, g, ed) := by
  unfold trainWithReinforce
  rw [if_neg]
  simp [h]

/-- C3: in the spec's end-to-end scenario (single timestep, raw output 0.5,
reward +1, discount 1, learning rate 0.1, action Up), `pi_0 = 0.5` and the
output-bias delta is `0.05` as claimed; but the hidden-layer-2 bias delta is
`0.1 * 0.5 * h2[0] * (1 - h2[0]) = 0.0125` even though the output is constant
in that bias (the output weights are all zero), so the code's delta cannot
equal any chain-rule expansion through the network, whose value there is 0.
The code (reinforce.rs lines 136-137) omits the `output_layer_weights[k]`
factor from the hidden-2 bias gradient. -/
theorem C3_hidden2_bias_delta_not_chain_rule :
    networkOutput zeroNet zeroState = 1/2 ∧
    (trainWithReinforce true 0.1 1 zeroNet zeroGradient edC3).map (fun r => r.1.biases 10)
      = some 0.05 ∧
    (trainWithReinforce true 0.1 1 zeroNet zeroGradient edC3).map (fun r => r.1.biases 5)
      = some 0.0125 ∧
    (∀ b : ℝ, networkOutput { zeroNet with biases := Function.update zeroNet.biases 5 b } zeroState
      = networkOutput zeroNet zeroState) ∧
    (0.0125 : ℝ) ≠ 0 := by
  refine ⟨networkOutput_zeroNet, ?_, ?_, ?_, by norm_num⟩
  · rw [trainC3_eq]
    show some ((applyGradient zeroNet (accumulatedGradient zeroNet 0.1 1 edC3 zeroGradient)).biases 10) = _
    rw [accC3_eq]
    show some (zeroNet.biases 10 + _) = _
    rw [tg_up_biases10, networkOutput_zeroNet]
    norm_num [zeroNet, zeroGradient]
  · rw [trainC3_eq]
    show some ((applyGradient zeroNet (accumulatedGradient zeroNet 0.1 1 edC3 zeroGradient)).biases 5) = _
    rw [accC3_eq]
    show some (zeroNet.biases 5 + _) = _
    rw [tg_up_biases5, networkOutput_zeroNet, layer2_zeroNet]
    norm_num [zeroNet, zeroGradient]
  · intro b
    rw [networkOutput_zeroNet]
    simp [networkOutput, zeroNet, Function.update_apply, activation_zero]

/-- C4 counterexample: on the mismatched trajectory with 1 state, 1 action
and 2 rewards, the trainer does not reject the pass — it trains, changing
the output bias of the Policy Model from 0 to 0.05. -/
theorem C4_counterexample_mismatch_trains_anyway :
    (trainWithReinforce true 0.1 1 zeroNet zeroGradient edMismatchLong).map (fun r => r.1.biases 10)
      = some 0.05 ∧
    zeroNet.biases 10 = 0 ∧ (0.05 : ℝ) ≠ 0 := by
  refine ⟨?_, rfl, by norm_num⟩
  have e : trainWithReinforce true 0.1 1 zeroNet zeroGradient edMismatchLong
      = some (applyGradient zeroNet (accumulatedGradient zeroNet 0.1 1 edMismatchLong zeroGradient),
              zeroGradient, clearedEpochData edMismatchLong) := by
    unfold trainWithReinforce
    rw [if_pos ⟨rfl, rfl⟩, if_neg (by norm_num [edMismatchLong])]
  rw [e]
  show some ((applyGradient zeroNet (accumulatedGradient zeroNet 0.1 1 edMismatchLong zeroGradient)).biases 10) = _
  rw [acc_edMismatchLong]
  show some (zeroNet.biases 10 + _) = _
  rw [tg_up_biases10, networkOutput_zeroNet]
  norm_num [zeroNet, zeroGradient]

/-- C4 (amended): the trainer performs no length validation.  When the
rewards or actions sequence is shorter than the states sequence the pass
panics on an out-of-bounds index (modelled as `none`) instead of reporting a
`DimensionMismatch` and discarding cleanly; when they are at least as long as
the states sequence the pass proceeds normally, using the states length as T
and silently ignoring the extra entries. -/
theorem C4_amended_no_length_check (training : Bool) (lr d : ℝ) (net : Network)
    (g : PolicyGradient) (ed : EpochData) (h1 : ed.inprogress = false)
    (h2 : training = true)
    (h3 : ed.rewards.length < ed.states.length ∨ ed.actions.length < ed.states.length) :
    trainWithReinforce training lr d net g ed = none := by
  unfold trainWithReinforce
  rw [if_pos ⟨h1, h2⟩, if_pos h3]

/-- Witness for C4 (amended): 1 state, 1 action, 0 rewards panics. -/
theorem C4_amended_no_length_check_witness :
    trainWithReinforce true 0.1 1 zeroNet zeroGradient edMismatchShort = none :=
  C4_amended_no_length_check true 0.1 1 zeroNet zeroGradient edMismatchShort rfl rfl
    (Or.inl (by norm_num [edMismatchShort]))

/-- C6: on a single-timestep episode whose raw output is 0.5, the deltas the
training pass folds into the Gradient Accumulator for the Down action are,
parameter by parameter, exactly the negation of the deltas for the Up action
(same state, reward, learning rate and discount). -/
theorem C6_down_deltas_negate_up_deltas (net : Network) (g : PolicyGradient)
    (st : ℕ → ℝ) (reward lr d p q : ℝ) (h : networkOutput net st = 1/2) :
    (∀ j,
      (accumulatedGradient net lr d (edSingle NPCInput.DownKey q st reward) g).biases j
          - g.biases j
        = -((accumulatedGradient net lr d (edSingle NPCInput.UpKey p st reward) g).biases j
          - g.biases j)) ∧
    (∀ m j,
      (accumulatedGradient net lr d (edSingle NPCInput.DownKey q st reward) g).first_layer_weights m j
          - g.first_layer_weights m j
        = -((accumulatedGradient net lr d (edSingle NPCInput.UpKey p st reward) g).first_layer_weights m j
          - g.first_layer_weights m j)) ∧
    (∀ j k,
      (accumulatedGradient net lr d (edSingle NPCInput.DownKey q st reward) g).second_layer_weights j k
          - g.second_layer_weights j k
        = -((accumulatedGradient net lr d (edSingle NPCInput.UpKey p st reward) g).second_layer_weights j k
          - g.second_layer_weights j k)) ∧
    (∀ k,
      (accumulatedGradient net lr d (edSingle NPCInput.DownKey q st reward) g).output_layer_weights k
          - g.output_layer_weights k
        = -((accumulatedGradient net lr d (edSingle NPCInput.UpKey p st reward) g).output_layer_weights k
          - g.output_layer_weights k)) := by
  rw [acc_edSingle, acc_edSingle]
  refine ⟨?_, ?_, ?_, ?_⟩
  · intro j
    simp only [timestepGradient]
    simp only [reduceCtorEq, if_true, if_false, ite_true, ite_false]
    split_ifs <;> (try rw [h]) <;> ring
  · intro m j
    simp only [timestepGradient]
    simp only [reduceCtorEq, if_true, if_false, ite_true, ite_false]
    split_ifs <;> (try rw [h]) <;> ring
  · intro j k
    simp only [timestepGradient]
    simp only [reduceCtorEq, if_true, if_false, ite_true, ite_false]
    split_ifs <;> (try rw [h]) <;> ring
  · intro k
    simp only [timestepGradient]
    simp only [reduceCtorEq, if_true, if_false, ite_true, ite_false]
    split_ifs <;> (try rw [h]) <;> ring

/-- Witness for C6: output-bias deltas negate on the zero network. -/
theorem C6_down_deltas_negate_up_deltas_witness :
    (accumulatedGradient zeroNet 0.1 1 (edSingle NPCInput.DownKey (1/2) zeroState 1) zeroGradient).biases 10
        - zeroGradient.biases 10
      = -((accumulatedGradient zeroNet 0.1 1 (edSingle NPCInput.UpKey (1/2) zeroState 1) zeroGradient).biases 10
        - zeroGradient.biases 10) :=
  (C6_down_deltas_negate_up_deltas zeroNet zeroGradient zeroState 1 0.1 1 (1/2) (1/2)
    networkOutput_zeroNet).1 10

/-- C7: after the trajectory is folded into the accumulator, the trainer's
resulting network adds the accumulated value onto each parameter exactly
once, with no further scaling and no division by the episode length. -/
theorem C7_accumulated_gradient_applied_once (net : Network) (g : PolicyGradient)
    (ed : EpochData) (lr d : ℝ) (h1 : ed.inprogress = false)
    (h2 : ¬ (ed.rewards.length < ed.states.length ∨ ed.actions.length < ed.states.length)) :
    (trainWithReinforce true lr d net g ed).map (fun r => r.1)
      = some (applyGradient net (accumulatedGradient net lr d ed g)) ∧
    ∀ (n : Network) (G : PolicyGradient),
      (∀ j, (applyGradient n G).biases j = n.biases j + G.biases j) ∧
      (∀ m j, (applyGradient n G).first_layer_weights m j
        = n.first_layer_weights m j + G.first_layer_weights m j) ∧
      (∀ j k, (applyGradient n G).second_layer_weights j k
        = n.second_layer_weights j k + G.second_layer_weights j k) ∧
      (∀ k, (applyGradient n G).output_layer_weights k
        = n.output_layer_weights k + G.output_layer_weights k) := by
  constructor
  · unfold trainWithReinforce
    rw [if_pos ⟨h1, rfl⟩, if_neg h2]
    rfl
  · intro n G
    exact ⟨fun _ => rfl, fun _ _ => rfl, fun _ _ => rfl, fun _ => rfl⟩

/-- Witness for C7: the single-timestep scenario trajectory. -/
theorem C7_accumulated_gradient_applied_once_witness :
    (trainWithReinforce true 0.1 1 zeroNet zeroGradient edC3).map (fun r => r.1)
      = some (applyGradient zeroNet (accumulatedGradient zeroNet 0.1 1 edC3 zeroGradient)) :=
  (C7_accumulated_gradient_applied_once zeroNet zeroGradient edC3 0.1 1 rfl
    (by norm_num [edC3])).1

/-- C8: immediately after a successful training pass the gradient accumulator
is all-zero, all three trajectory sequences are empty, and the
episode-in-progress flag is set back to true so play resumes. -/
theorem C8_accumulator_and_buffers_reset (net : Network) (g : PolicyGradient)
    (ed : EpochData) (lr d : ℝ) (h1 : ed.inprogress = false)
    (h2 : ¬ (ed.rewards.length < ed.states.length ∨ ed.actions.length < ed.states.length)) :
    (trainWithReinforce true lr d net g ed).map (fun r => r.2)
      = some (zeroGradient, clearedEpochData ed) ∧
    (∀ j, zeroGradient.biases j = 0) ∧
    (∀ m j, zeroGradient.first_layer_weights m j = 0) ∧
    (∀ j k, zeroGradient.second_layer_weights j k = 0) ∧
    (∀ k, zeroGradient.output_layer_weights k = 0) ∧
    (clearedEpochData ed).actions = [] ∧
    (clearedEpochData ed).states = [] ∧
    (clearedEpochData ed).rewards = [] ∧
    (clearedEpochData ed).inprogress = true := by
  refine ⟨?_, fun _ => rfl, fun _ _ => rfl, fun _ _ => rfl, fun _ => rfl, rfl, rfl, rfl, rfl⟩
  unfold trainWithReinforce
  rw [if_pos ⟨h1, rfl⟩, if_neg h2]
  rfl

/-- Witness for C8: the single-timestep scenario trajectory. -/
theorem C8_accumulator_and_buffers_reset_witness :
    (trainWithReinforce true 0.1 1 zeroNet zeroGradient edC3).map (fun r => r.2)
      = some (zeroGradient, clearedEpochData edC3) :=
  (C8_accumulator_and_buffers_reset zeroNet zeroGradient edC3 0.1 1 rfl
    (by norm_num [edC3])).1

/-- Witness for C10: a concrete in-progress trajectory is returned untouched. -/
theorem C10_trainer_noop_while_in_progress_witness :
    trainWithReinforce true 0.1 1 zeroNet zeroGradient (clearedEpochData edC3)
      = some (zeroNet, zeroGradient, clearedEpochData edC3) :=
  C10_trainer_noop_while_in_progress true 0.1 1 zeroNet zeroGradient
    (clearedEpochData edC3) (by simp [clearedEpochData])

end

end PongAI
